import Mathlib

/-!
A shallow embedding of the SharePointFileAnalyzer file-processing pipeline.

The embedded code (translated function by function from the Python source):
  * `Config.SUPPORTED_FILE_TYPES`, `Config.MAX_FILE_SIZE_MB` (config.py);
  * `SharePointClient.get_file_content_as_text`, `SharePointClient._extract_pdf_text`
    (here `extract_pdf_text`), `SharePointClient._extract_docx_text`
    (here `extract_docx_text`) (sharepoint_client.py);
  * `AIAnalyzer.analyze_document` and `AIAnalyzer.analyze_file_metadata`
    (ai_analyzer.py);
  * `process_files` (main.py);
  * the report-row assembly of `ExcelGenerator.create_report` (excel_generator.py).

External collaborators (the SharePoint SDK download, the PyPDF2 / python-docx
decoders, the UTF-8 lossy decode, the OpenAI chat call and the `json.loads`
parser restricted to the two fields the analyzer reads) are modelled as
environment records of functions; any exception a collaborator may raise is an
`Except.error` carrying the exception message.  Python `str` helpers used by
the source (`strip`, `startswith`, slicing, `split`) are re-implemented
structurally over `String.data` so that every definition evaluates inside the
kernel.
-/

/-- One candidate file as produced by `SharePointClient.list_files`:
the dictionary with keys name / server_relative_url / size /
time_modified / extension (the spec's FileDescriptor). -/
structure FileDescriptor where
  name : String
  server_relative_url : String
  size : Nat
  time_modified : String
  extension : String
  deriving DecidableEq

/-- The dictionary with keys title / summary returned by both analyzer
methods (the spec's AnalysisResult). -/
structure AnalysisResult where
  title : String
  summary : String
  deriving DecidableEq

/-- One element of the `analysis_results` list built by `process_files`
(the spec's AnalysisRecord). -/
structure AnalysisRecord where
  filename : String
  title : String
  summary : String
  size : Nat
  time_modified : String
  extension : String
  deriving DecidableEq

/-- One element of the `errors` list built by `process_files`
(the spec's ProcessingError); `error_type` is the literal string the
source stores: "Content Extraction Failed" or "Processing Failed". -/
structure ProcessingError where
  filename : String
  error_type : String
  error_message : String
  deriving DecidableEq

/-- The parsed JSON object returned by `json.loads`, restricted to the two
keys `AIAnalyzer.analyze_document` reads with `result.get`: an absent key
is `none`. -/
structure ParsedJson where
  title : Option String
  summary : Option String
  deriving DecidableEq

/-- The external collaborators of `AIAnalyzer.analyze_document`: the chat
completion call (returning the raw message content, or raising) and the
`json.loads` parser (returning the two fields, or raising). -/
structure AIEnv where
  complete : String → Except String String
  json_loads : String → Except String ParsedJson

/-- The external collaborators of `SharePointClient`: the SDK download
(raising on retrieval faults), the PyPDF2 page texts, the python-docx
paragraph texts (each raising on decode faults), and the lossy UTF-8
decode of `bytes.decode('utf-8', errors='ignore')`, which never raises.
Raw bytes are modelled as `List Nat`. -/
structure SPEnv where
  download_file : String → Except String (List Nat)
  pdf_reader : List Nat → Except String (List String)
  docx_paragraphs : List Nat → Except String (List String)
  decode_text : List Nat → String

/-- The two injected objects `process_files` calls into, at the granularity
`process_files` observes them: any exception either object raises is an
`Except.error`.  (`sp_client.get_file_content_as_text` takes the
server-relative URL and the extension; the analyzer methods take the
filename plus content or extension.) -/
structure Collaborators where
  get_file_content_as_text : String → String → Except String String
  analyze_document : String → String → Except String AnalysisResult
  analyze_file_metadata : String → String → Except String AnalysisResult

/-! ## Python string helpers, structurally over `String.data` -/

/-- Python `str.strip()`: drop whitespace from both ends. -/
def pyStrip (s : String) : String :=
  String.mk (((s.data.dropWhile Char.isWhitespace).reverse.dropWhile
    Char.isWhitespace).reverse)

/-- Python `s.startswith(pre)`. -/
def pyStartsWith (s pre : String) : Bool :=
  pre.data.isPrefixOf s.data

/-- Python `s[:n]`. -/
def pyTake (s : String) (n : Nat) : String :=
  String.mk (s.data.take n)

/-- Python `s[n:]`. -/
def pyDrop (s : String) (n : Nat) : String :=
  String.mk (s.data.drop n)

/-- Worker for `pySplit`: scans `l` left to right, cutting at each
occurrence of `sep`; `fuel` only bounds the recursion (callers pass the
length of the list, which suffices for a non-empty separator). -/
def pySplitAux (sep : List Char) : Nat → List Char → List Char → List (List Char)
  | 0, l, acc => [acc.reverse ++ l]
  | _ + 1, [], acc => [acc.reverse]
  | fuel + 1, c :: rest, acc =>
      if sep.isPrefixOf (c :: rest) then
        acc.reverse :: pySplitAux sep fuel ((c :: rest).drop sep.length) []
      else
        pySplitAux sep fuel rest (c :: acc)

/-- Python `s.split(sep)` for a non-empty separator: split at every
occurrence of `sep`, keeping empty pieces. -/
def pySplit (s sep : String) : List String :=
  (pySplitAux sep.data (s.data.length + 1) s.data []).map String.mk

/-! ## config.py -/

/-- `Config.SUPPORTED_FILE_TYPES` (config.py): the fixed allow-list. -/
def SUPPORTED_FILE_TYPES : List String :=
  [".txt", ".pdf", ".docx", ".doc",
   ".xlsx", ".xls", ".pptx", ".ppt",
   ".md", ".csv", ".json", ".xml"]

/-- `Config.MAX_FILE_SIZE_MB` with its default value 10 (config.py). -/
def MAX_FILE_SIZE_MB : Nat := 10

/-! ## sharepoint_client.py -/

/-- `SharePointClient._extract_pdf_text`: join the page texts with
newlines; any decode exception is caught and returned as bracketed text
(the function itself never raises). -/
def extract_pdf_text (env : SPEnv) (content_bytes : List Nat) : String :=
  match env.pdf_reader content_bytes with
  | .ok text_parts => String.intercalate "\n" text_parts
  | .error e => "[Error extracting PDF text: " ++ e ++ "]"

/-- `SharePointClient._extract_docx_text`: join the paragraph texts with
newlines; any decode exception is caught and returned as bracketed text. -/
def extract_docx_text (env : SPEnv) (content_bytes : List Nat) : String :=
  match env.docx_paragraphs content_bytes with
  | .ok text_parts => String.intercalate "\n" text_parts
  | .error e => "[Error extracting DOCX text: " ++ e ++ "]"

/-- `SharePointClient.get_file_content_as_text`: download, then dispatch on
the extension.  Only `download_file` can raise; the final catch-all branch
decodes with `errors='ignore'`, which never raises, so its `except` arm is
dead code. -/
def get_file_content_as_text (env : SPEnv)
    (server_relative_url file_extension : String) : Except String String :=
  match env.download_file server_relative_url with
  | .error e => .error e
  | .ok content_bytes =>
      if file_extension = ".txt" then
        .ok (env.decode_text content_bytes)
      else if file_extension = ".pdf" then
        .ok (extract_pdf_text env content_bytes)
      else if file_extension = ".docx" ∨ file_extension = ".doc" then
        .ok (extract_docx_text env content_bytes)
      else
        .ok (env.decode_text content_bytes)

/-! ## ai_analyzer.py -/

/-- The default of `analyze_document`'s `max_content_length` parameter. -/
def MAX_CONTENT_LENGTH : Nat := 8000

/-- The literal appended when content is truncated. -/
def truncation_marker : String := "\n... [content truncated]"

/-- The truncation step of `AIAnalyzer.analyze_document`:
`content[:max_content_length] + "\n... [content truncated]"` when the
content is longer than the limit, the content unchanged otherwise. -/
def truncate_content (max_content_length : Nat) (content : String) : String :=
  if content.length > max_content_length then
    pyTake content max_content_length ++ truncation_marker
  else content

/-- The f-string prompt of `AIAnalyzer.analyze_document`. -/
def build_prompt (filename content : String) : String :=
  "Analyze the following document and provide:\n" ++
  "1. A concise title that best represents the document's content\n" ++
  "2. A one-paragraph summary (3-5 sentences) describing the key points and purpose of the document\n" ++
  "\n" ++
  "Document filename: " ++ filename ++ "\n" ++
  "\n" ++
  "Document content:\n" ++ content ++ "\n" ++
  "\n" ++
  "Please respond in the following JSON format:\n" ++
  "\x7b\n" ++
  "  \"title\": \"Your extracted or generated title here\",\n" ++
  "  \"summary\": \"Your one-paragraph summary here\"\n" ++
  "\x7d"

/-- The response clean-up of `AIAnalyzer.analyze_document`: strip the raw
message content, then, when it starts with a fenced code block, take the
text between the first pair of fences, drop an optional leading `json`
tag, and strip again. -/
def clean_response (response : String) : String :=
  let response_text := pyStrip response
  if pyStartsWith response_text "```" then
    let t := ((pySplit response_text "```").get? 1).getD ""
    let t := if pyStartsWith t "json" then pyDrop t 4 else t
    pyStrip t
  else response_text

/-- The response handling of `AIAnalyzer.analyze_document`: clean and
parse the completion outcome; the `try`/`except` around the call and the
parse becomes the two `.error` arms, and the `result.get` defaults become
`Option.getD`. -/
def parse_analysis (env : AIEnv) (filename : String) :
    Except String String → AnalysisResult
  | .error e => ⟨filename, "Error during analysis: " ++ e⟩
  | .ok response =>
      match env.json_loads (clean_response response) with
      | .error e => ⟨filename, "Error during analysis: " ++ e⟩
      | .ok result =>
          ⟨result.title.getD filename,
           result.summary.getD "Unable to generate summary"⟩

/-- The body of `AIAnalyzer.analyze_document` after truncation: build the
prompt, call the completion collaborator, and handle the response. -/
def analyze_truncated (env : AIEnv) (filename content : String) : AnalysisResult :=
  parse_analysis env filename (env.complete (build_prompt filename content))

/-- `AIAnalyzer.analyze_document` (Analyzer Contract A): truncate the
content, then analyze.  Total: every failure of a collaborator is absorbed
into the returned `AnalysisResult`. -/
def analyze_document (env : AIEnv) (max_content_length : Nat)
    (filename content : String) : AnalysisResult :=
  analyze_truncated env filename (truncate_content max_content_length content)

/-- `AIAnalyzer.analyze_file_metadata` (the spec's Contract B,
`analyze_by_metadata_only`): a pure function of the filename and the
extension, with no collaborator argument. -/
def analyze_file_metadata (filename extension : String) : AnalysisResult :=
  ⟨filename,
   "File type: " ++ (extension ++ ". Content analysis not available for this file type.")⟩

/-! ## main.py: process_files -/

/-- The eligibility filter of `process_files` (main.py lines 76-80):
supported extension and size at most `MAX_FILE_SIZE_MB * 1024 * 1024`. -/
def eligible (f : FileDescriptor) : Bool :=
  SUPPORTED_FILE_TYPES.contains f.extension &&
    decide (f.size ≤ MAX_FILE_SIZE_MB * 1024 * 1024)

/-- The record `process_files` appends for one file: the descriptor's
name, raw size, timestamp and extension with the analysis title and
summary (main.py lines 114-121). -/
def record_of (f : FileDescriptor) (analysis : AnalysisResult) : AnalysisRecord :=
  ⟨f.name, analysis.title, analysis.summary, f.size, f.time_modified, f.extension⟩

/-- The tail of the per-file loop body, from the analysis call on: the
outer `try` of `process_files` turns a raised analysis into a
"Processing Failed" error appended after the errors `errs0` already
recorded for this file, and the file then contributes no record. -/
def finishAnalysis (f : FileDescriptor) (errs0 : List ProcessingError)
    (analysisE : Except String AnalysisResult) :
    Option AnalysisRecord × List ProcessingError :=
  match analysisE with
  | .ok analysis => (some (record_of f analysis), errs0)
  | .error e => (none, errs0 ++ [⟨f.name, "Processing Failed", e⟩])

/-- The body of the per-file loop of `process_files` (main.py lines 87-129)
for one file: the inner `try` turns a raised content extraction into a
"Content Extraction Failed" error with `content = None`; the blankness test
`content and len(content.strip()) > 0` picks the analyzer method; the outer
`try` turns a raised analysis into a "Processing Failed" error and drops
the record.  Returns the record appended to `analysis_results` (if any) and
the errors appended to `errors`, in append order. -/
def processOne (c : Collaborators) (f : FileDescriptor) :
    Option AnalysisRecord × List ProcessingError :=
  match c.get_file_content_as_text f.server_relative_url f.extension with
  | .ok content =>
      finishAnalysis f []
        (if !content.isEmpty && decide ((pyStrip content).length > 0) then
           c.analyze_document f.name content
         else
           c.analyze_file_metadata f.name f.extension)
  | .error e =>
      finishAnalysis f [⟨f.name, "Content Extraction Failed", e⟩]
        (c.analyze_file_metadata f.name f.extension)

/-- The loop of `process_files` over the already-filtered list: each file
appends its record (if any) to the first stream and its errors to the
second. -/
def processList (c : Collaborators) :
    List FileDescriptor → List AnalysisRecord × List ProcessingError
  | [] => ([], [])
  | f :: fs =>
      ((processOne c f).1.toList ++ (processList c fs).1,
       (processOne c f).2 ++ (processList c fs).2)

/-- `process_files` (main.py lines 59-131): filter by supported type and
size, then run the per-file loop; returns
`(analysis_results, errors)`. -/
def process_files (c : Collaborators) (files : List FileDescriptor) :
    List AnalysisRecord × List ProcessingError :=
  processList c (files.filter eligible)

/-! ## excel_generator.py: the data row of create_report -/

/-- Python `round(q, 2)` on an exact value, as `ExcelGenerator.create_report`
applies it to `size / 1024`: round half to even at two decimal digits,
modelled in exact rational arithmetic. -/
def pyRound2 (q : Rat) : Rat :=
  (((if q * 100 - ⌊q * 100⌋ < 1/2 then ⌊q * 100⌋
     else if 1/2 < q * 100 - ⌊q * 100⌋ then ⌊q * 100⌋ + 1
     else if ⌊q * 100⌋ % 2 = 0 then ⌊q * 100⌋ else ⌊q * 100⌋ + 1) : Int) : Rat) / 100

/-- One data row written by `ExcelGenerator.create_report` (columns 1-6 of
row `header_row + idx`): the index, the record fields, and the size
converted to kibibytes by `round(result.get('size', 0) / 1024, 2)`. -/
structure ReportRow where
  idx : Nat
  filename : String
  title : String
  summary : String
  size_kb : Rat
  time_modified : String
  deriving DecidableEq

/-- The row `ExcelGenerator.create_report` writes for one record. -/
def report_row (idx : Nat) (r : AnalysisRecord) : ReportRow :=
  ⟨idx, r.filename, r.title, r.summary, pyRound2 ((r.size : Rat) / 1024), r.time_modified⟩

/-- All data rows of the report: `enumerate(analysis_results, 1)`. -/
def report_rows (analysis_results : List AnalysisRecord) : List ReportRow :=
  analysis_results.enum.map (fun p => report_row (p.1 + 1) p.2)

/-! ## Helper lemmas -/

/-- Unpacking `++` on strings to `++` on their character lists. -/
lemma string_data_append (a b : String) : (a ++ b).data = a.data ++ b.data := by
  cases a; cases b; rfl

/-- A string containing a non-whitespace character does not strip to empty. -/
lemma pyStrip_ne_empty (s : String) (c : Char) (hc : c ∈ s.data)
    (hw : c.isWhitespace = false) : pyStrip s ≠ "" := by
  intro h
  have hdata : (((s.data.dropWhile Char.isWhitespace).reverse.dropWhile
      Char.isWhitespace).reverse) = ([] : List Char) := congrArg String.data h
  rw [List.reverse_eq_nil_iff, List.dropWhile_eq_nil_iff] at hdata
  have h2 : ∀ x ∈ s.data.dropWhile Char.isWhitespace, x.isWhitespace = true :=
    fun x hx => hdata x (List.mem_reverse.mpr hx)
  rw [← List.takeWhile_append_dropWhile (p := Char.isWhitespace) (l := s.data)] at hc
  rcases List.mem_append.mp hc with h3 | h3
  · exact absurd (List.mem_takeWhile_imp h3) (by simp [hw])
  · exact absurd (h2 c h3) (by simp [hw])

/-- A string whose left half is non-empty is non-empty. -/
lemma append_left_ne_empty (a b : String) (ha : a ≠ "") : a ++ b ≠ "" := by
  intro h
  have hdata : a.data ++ b.data = ([] : List Char) := by
    rw [← string_data_append]; exact congrArg String.data h
  exact ha (by cases a; cases (List.append_eq_nil.mp hdata).1; rfl)

/-- The number of "Processing Failed" entries in an error stream. -/
def pfCount (errs : List ProcessingError) : Nat :=
  errs.countP (fun e => e.error_type == "Processing Failed")

lemma pfCount_append (a b : List ProcessingError) :
    pfCount (a ++ b) = pfCount a + pfCount b :=
  List.countP_append _ _ _

/-- After the analysis call, either a record and the errors already
recorded, or no record and exactly one "Processing Failed" entry more. -/
lemma finishAnalysis_dichotomy (f : FileDescriptor) (errs0 : List ProcessingError)
    (aE : Except String AnalysisResult) (h0 : pfCount errs0 = 0) :
    ((finishAnalysis f errs0 aE).1.isSome = true ∧
      pfCount (finishAnalysis f errs0 aE).2 = 0) ∨
    ((finishAnalysis f errs0 aE).1 = none ∧
      pfCount (finishAnalysis f errs0 aE).2 = 1) := by
  cases aE with
  | ok a => exact Or.inl ⟨rfl, h0⟩
  | error e =>
      refine Or.inr ⟨rfl, ?_⟩
      show pfCount (errs0 ++ [⟨f.name, "Processing Failed", e⟩]) = 1
      rw [pfCount_append, h0]
      rfl

/-- Per file, the loop body yields either a record and no
"Processing Failed" entry, or no record and exactly one. -/
lemma processOne_dichotomy (c : Collaborators) (f : FileDescriptor) :
    ((processOne c f).1.isSome = true ∧ pfCount (processOne c f).2 = 0) ∨
    ((processOne c f).1 = none ∧ pfCount (processOne c f).2 = 1) := by
  unfold processOne
  cases hg : c.get_file_content_as_text f.server_relative_url f.extension with
  | ok content => exact finishAnalysis_dichotomy f [] _ rfl
  | error e => exact finishAnalysis_dichotomy f [⟨f.name, "Content Extraction Failed", e⟩] _ rfl

/-- The success stream of the loop is the per-file records in input order. -/
lemma processList_fst (c : Collaborators) :
    ∀ L : List FileDescriptor,
      (processList c L).1 = L.filterMap (fun f => (processOne c f).1)
  | [] => rfl
  | f :: fs => by
      show (processOne c f).1.toList ++ (processList c fs).1 = _
      rw [processList_fst c fs, List.filterMap_cons]
      cases hx : (processOne c f).1 <;> simp

/-- The error stream of the loop is the per-file errors in input order. -/
lemma processList_snd (c : Collaborators) :
    ∀ L : List FileDescriptor,
      (processList c L).2 = L.flatMap (fun f => (processOne c f).2)
  | [] => rfl
  | f :: fs => by
      show (processOne c f).2 ++ (processList c fs).2 = _
      rw [processList_snd c fs, List.flatMap_cons]

/-- Records plus "Processing Failed" entries account for every file the
loop receives, one each. -/
lemma processList_length (c : Collaborators) :
    ∀ L : List FileDescriptor,
      (processList c L).1.length + pfCount (processList c L).2 = L.length
  | [] => rfl
  | f :: fs => by
      have ih := processList_length c fs
      show ((processOne c f).1.toList ++ (processList c fs).1).length +
        pfCount ((processOne c f).2 ++ (processList c fs).2) = fs.length + 1
      rw [List.length_append, pfCount_append]
      rcases processOne_dichotomy c f with ⟨h1, h2⟩ | ⟨h1, h2⟩
      · obtain ⟨r, hr⟩ := Option.isSome_iff_exists.mp h1
        rw [hr, h2]
        simp only [Option.toList_some, List.length_singleton]
        omega
      · rw [h1, h2]
        simp only [Option.toList_none, List.length_nil]
        omega

/-- A record `finishAnalysis` emits carries the descriptor's name, raw
size, timestamp and extension unchanged. -/
lemma finishAnalysis_some (f : FileDescriptor) (errs0 : List ProcessingError)
    (aE : Except String AnalysisResult) (r : AnalysisRecord) :
    (finishAnalysis f errs0 aE).1 = some r →
    r.filename = f.name ∧ r.size = f.size ∧
    r.time_modified = f.time_modified ∧ r.extension = f.extension := by
  cases aE with
  | ok a =>
      intro h
      cases Option.some.inj h
      exact ⟨rfl, rfl, rfl, rfl⟩
  | error e => intro h; exact absurd h (by simp [finishAnalysis])

/-- A record the loop body emits carries the descriptor's name, raw size,
timestamp and extension unchanged. -/
lemma processOne_some (c : Collaborators) (f : FileDescriptor) (r : AnalysisRecord)
    (h : (processOne c f).1 = some r) :
    r.filename = f.name ∧ r.size = f.size ∧
    r.time_modified = f.time_modified ∧ r.extension = f.extension := by
  revert h
  unfold processOne
  cases hg : c.get_file_content_as_text f.server_relative_url f.extension with
  | ok content => exact finishAnalysis_some f [] _ r
  | error e => exact finishAnalysis_some f [⟨f.name, "Content Extraction Failed", e⟩] _ r

/-! ## Concrete instantiations used by closed theorems -/

/-- `process_files`'s two duck-typed arguments assembled from the embedded
`SharePointClient` and `AIAnalyzer` methods: the client call passes any
download fault through, and the analyzer methods are total (they never
raise), so they always return `.ok`. -/
def mkCollaborators (sp : SPEnv) (ai : AIEnv) : Collaborators :=
  ⟨fun url ext => get_file_content_as_text sp url ext,
   fun filename content => .ok (analyze_document ai MAX_CONTENT_LENGTH filename content),
   fun filename ext => .ok (analyze_file_metadata filename ext)⟩

/-- A 100-byte text file whose extraction succeeds. -/
def dTxt : FileDescriptor := ⟨"a.txt", "u1", 100, "2024-01-01", ".txt"⟩

/-- A PDF file whose raw bytes are corrupt. -/
def dPdf : FileDescriptor := ⟨"b.pdf", "u2", 100, "2024-01-01", ".pdf"⟩

/-- A file whose format is not in the allow-list. -/
def dBin : FileDescriptor := ⟨"c.bin", "u3", 100, "2024-01-01", ".bin"⟩

/-- A SharePoint environment for the three-file round trip: the text file
downloads to ASCII bytes, the PDF downloads but its decoder raises, and
the lossy decode maps ASCII bytes to their characters. -/
def cexSP : SPEnv :=
  ⟨fun url => if url = "u1" then .ok [104, 101, 108, 108, 111]
    else if url = "u2" then .ok [37, 80, 68, 70] else .error "404",
   fun _ => .error "EOF marker not found",
   fun _ => .error "no docx content",
   fun bs => String.mk (bs.filterMap
     (fun n => if n < 128 then some (Char.ofNat n) else none))⟩

/-- The well-formed JSON body the completion collaborator of the round
trip returns for every prompt. -/
def jsonBody : String := "\x7b\"title\": \"T\", \"summary\": \"S\"\x7d"

/-- An AI environment whose completion always answers `jsonBody` and whose
parser accepts exactly that body, with both fields present. -/
def cexAI : AIEnv :=
  ⟨fun _ => .ok jsonBody,
   fun s => if s = jsonBody then .ok ⟨some "T", some "S"⟩
     else .error "Expecting value"⟩

/-- A SharePoint environment whose download always raises. -/
def failSP : SPEnv :=
  ⟨fun _ => .error "network down",
   fun _ => .error "unreachable", fun _ => .error "unreachable", fun _ => ""⟩

/-- An AI environment whose completion returns a JSON object carrying only
a title, and whose parser accepts exactly that body: the `summary` field
is absent from the parsed response. -/
def titleOnlyAI : AIEnv :=
  ⟨fun _ => .ok "\x7b\"title\": \"Quarterly Report\"\x7d",
   fun s => if s = "\x7b\"title\": \"Quarterly Report\"\x7d" then
       .ok ⟨some "Quarterly Report", none⟩
     else .error "Expecting value"⟩

/-! ## Claim theorems -/

/-- C1: for every file that passes the eligibility filter, `process_files`
yields exactly one AnalysisRecord or exactly one "Processing Failed"
ProcessingError, never both and never neither: per eligible file the loop
body emits a record exactly when it emits no "Processing Failed" entry
(and then exactly one such entry), the counts add up over the whole batch,
and the success stream is exactly the per-file records. -/
theorem process_files_one_record_xor_one_processing_failed
    (c : Collaborators) (files : List FileDescriptor) :
    (∀ f ∈ files.filter eligible,
      ((processOne c f).1.isSome = true ∧ pfCount (processOne c f).2 = 0) ∨
      ((processOne c f).1 = none ∧ pfCount (processOne c f).2 = 1)) ∧
    (process_files c files).1.length + pfCount (process_files c files).2 =
      (files.filter eligible).length ∧
    (process_files c files).1 =
      (files.filter eligible).filterMap (fun f => (processOne c f).1) := by
  refine ⟨fun f _ => processOne_dichotomy c f, ?_, ?_⟩
  · exact processList_length c (files.filter eligible)
  · exact processList_fst c (files.filter eligible)

/-- C5: the eligibility filter is pure and silent: inserting a descriptor
whose format tag is not in the allow-list or whose size exceeds the
ceiling anywhere in the input leaves both outputs of `process_files`
unchanged, so it contributes neither a record nor an error. -/
theorem ineligible_descriptor_contributes_nothing (c : Collaborators)
    (l1 l2 : List FileDescriptor) (f : FileDescriptor)
    (hf : eligible f = false) :
    process_files c (l1 ++ f :: l2) = process_files c (l1 ++ l2) := by
  unfold process_files
  rw [List.filter_append, List.filter_append, List.filter_cons, hf]
  simp only [Bool.false_eq_true, if_false]

/-- Witness for C5 at a concrete batch: the `.bin` descriptor is not
eligible, and processing a batch holding only it equals processing the
empty batch. -/
theorem ineligible_descriptor_contributes_nothing_witness :
    process_files (mkCollaborators cexSP cexAI) ([] ++ dBin :: []) =
      process_files (mkCollaborators cexSP cexAI) ([] ++ []) :=
  ineligible_descriptor_contributes_nothing (mkCollaborators cexSP cexAI)
    [] [] dBin (by decide)

/-- C6: both output sequences of `process_files` preserve the relative
order of the input descriptors, with no reordering or deduplication: the
record stream is the per-file records of the filtered input in input
order, and the error stream is the concatenation of the per-file errors
in input order. -/
theorem process_files_preserves_input_order
    (c : Collaborators) (files : List FileDescriptor) :
    (process_files c files).1 =
      (files.filter eligible).filterMap (fun f => (processOne c f).1) ∧
    (process_files c files).2 =
      (files.filter eligible).flatMap (fun f => (processOne c f).2) :=
  ⟨processList_fst c (files.filter eligible),
   processList_snd c (files.filter eligible)⟩

/-- C2 counterexample: in the three-file batch (the `.txt` succeeds, the
`.pdf` bytes are corrupt so the PDF decoder raises, the `.bin` is not in
the allow-list), `process_files` records NO ProcessingError at all — in
particular no content-extraction-failed entry for the `.pdf` — and the
`.pdf` still gets an ordinary record: the decode error never reaches
`process_files` because `_extract_pdf_text` returns it as text. -/
theorem corrupt_pdf_batch_has_no_extraction_error :
    (process_files (mkCollaborators cexSP cexAI) [dTxt, dPdf, dBin]).2 = [] ∧
    (process_files (mkCollaborators cexSP cexAI) [dTxt, dPdf, dBin]).1.map
      (fun r => r.filename) = ["a.txt", "b.pdf"] :=
  ⟨rfl, rfl⟩

/-- C2 amended: the batch processes exactly the two eligible files, the
`.bin` appears in neither stream, and the corrupt `.pdf` yields the
bracketed decode-error message as ordinary extracted text, which is then
analyzed by Contract A — not by metadata-only analysis — and no
ProcessingError is recorded. -/
theorem corrupt_pdf_batch_round_trip :
    get_file_content_as_text cexSP "u2" ".pdf" =
      .ok "[Error extracting PDF text: EOF marker not found]" ∧
    process_files (mkCollaborators cexSP cexAI) [dTxt, dPdf, dBin] =
      ([⟨"a.txt", "T", "S", 100, "2024-01-01", ".txt"⟩,
        ⟨"b.pdf", "T", "S", 100, "2024-01-01", ".pdf"⟩], []) ∧
    analyze_document cexAI MAX_CONTENT_LENGTH "b.pdf"
      "[Error extracting PDF text: EOF marker not found]" = ⟨"T", "S"⟩ ∧
    (∀ r ∈ (process_files (mkCollaborators cexSP cexAI) [dTxt, dPdf, dBin]).1,
      r.filename ≠ "c.bin") ∧
    (∀ pe ∈ (process_files (mkCollaborators cexSP cexAI) [dTxt, dPdf, dBin]).2,
      pe.filename ≠ "c.bin") :=
  ⟨rfl, rfl, rfl, by decide, by decide⟩

/-- C3 counterexample: with a text-generation collaborator whose parsed
response carries a title but no summary (one of the two named fields is
absent), `analyze_document` keeps the response's title instead of
returning the filename, so the claimed "returns title equal to the
filename" fails. -/
theorem analyze_document_absent_summary_keeps_response_title :
    analyze_document titleOnlyAI MAX_CONTENT_LENGTH "notes.txt" "hello" =
      ⟨"Quarterly Report", "Unable to generate summary"⟩ ∧
    titleOnlyAI.json_loads
      (clean_response "\x7b\"title\": \"Quarterly Report\"\x7d") =
      .ok ⟨some "Quarterly Report", none⟩ ∧
    "Quarterly Report" ≠ "notes.txt" :=
  ⟨rfl, rfl, by decide⟩

/-- Unfolding equation: response handling of a raised completion call. -/
lemma parse_analysis_error (env : AIEnv) (filename e : String) :
    parse_analysis env filename (.error e) =
      ⟨filename, "Error during analysis: " ++ e⟩ := rfl

/-- Unfolding equation: response handling of a returned completion. -/
lemma parse_analysis_ok (env : AIEnv) (filename response : String) :
    parse_analysis env filename (.ok response) =
      (match env.json_loads (clean_response response) with
       | .error e => ⟨filename, "Error during analysis: " ++ e⟩
       | .ok result =>
           ⟨result.title.getD filename,
            result.summary.getD "Unable to generate summary"⟩) := rfl

/-- C3 amended: `analyze_document` is total (never raises).  When the
text-generation call fails, or the cleaned response fails to parse, it
returns title = filename and the non-empty summary
"Error during analysis: " followed by the failure message.  When parsing
succeeds, each absent field falls back individually: an absent title
becomes the filename and an absent summary becomes the non-empty
"Unable to generate summary" — a present title is kept even when the
summary is absent. -/
theorem analyze_document_total_fallbacks (env : AIEnv)
    (max_content_length : Nat) (filename content : String) :
    (∀ e, env.complete (build_prompt filename
        (truncate_content max_content_length content)) = .error e →
      analyze_document env max_content_length filename content =
        ⟨filename, "Error during analysis: " ++ e⟩ ∧
      ("Error during analysis: " ++ e) ≠ "") ∧
    (∀ response e, env.complete (build_prompt filename
        (truncate_content max_content_length content)) = .ok response →
      env.json_loads (clean_response response) = .error e →
      analyze_document env max_content_length filename content =
        ⟨filename, "Error during analysis: " ++ e⟩ ∧
      ("Error during analysis: " ++ e) ≠ "") ∧
    (∀ response result, env.complete (build_prompt filename
        (truncate_content max_content_length content)) = .ok response →
      env.json_loads (clean_response response) = .ok result →
      analyze_document env max_content_length filename content =
        ⟨result.title.getD filename,
         result.summary.getD "Unable to generate summary"⟩ ∧
      (result.summary = none →
        (analyze_document env max_content_length filename content).summary =
          "Unable to generate summary")) := by
  refine ⟨fun e he => ?_, fun response e hr he => ?_, fun response result hr hj => ?_⟩
  · constructor
    · unfold analyze_document analyze_truncated
      rw [he, parse_analysis_error]
    · exact append_left_ne_empty _ _ (by decide)
  · constructor
    · unfold analyze_document analyze_truncated
      rw [hr, parse_analysis_ok, he]
    · exact append_left_ne_empty _ _ (by decide)
  · have hmain : analyze_document env max_content_length filename content =
        ⟨result.title.getD filename,
         result.summary.getD "Unable to generate summary"⟩ := by
      unfold analyze_document analyze_truncated
      rw [hr, parse_analysis_ok, hj]
    refine ⟨hmain, fun hnone => ?_⟩
    rw [hmain, hnone]
    rfl

/-- C4: when content retrieval raises for an eligible file, `process_files`
records a "Content Extraction Failed" ProcessingError carrying the fault
message, performs metadata-only analysis, and still appends a record for
the file — so the error and a successful record coexist for the same
filename in the two output streams. -/
theorem content_extraction_failure_record_and_error_coexist
    (sp : SPEnv) (ai : AIEnv) (files : List FileDescriptor)
    (f : FileDescriptor) (e : String)
    (hf : f ∈ files) (he : eligible f = true)
    (hg : get_file_content_as_text sp f.server_relative_url f.extension = .error e) :
    (∃ r ∈ (process_files (mkCollaborators sp ai) files).1,
      r.filename = f.name ∧ r.title = f.name ∧
      r.summary = (analyze_file_metadata f.name f.extension).summary) ∧
    ∃ pe ∈ (process_files (mkCollaborators sp ai) files).2,
      pe.filename = f.name ∧ pe.error_type = "Content Extraction Failed" ∧
      pe.error_message = e := by
  have hpo : processOne (mkCollaborators sp ai) f =
      (some ⟨f.name, f.name, (analyze_file_metadata f.name f.extension).summary,
             f.size, f.time_modified, f.extension⟩,
       [⟨f.name, "Content Extraction Failed", e⟩]) := by
    unfold processOne
    have hgc : (mkCollaborators sp ai).get_file_content_as_text
        f.server_relative_url f.extension = .error e := hg
    rw [hgc]
    rfl
  have hmem : f ∈ files.filter eligible := List.mem_filter.mpr ⟨hf, he⟩
  constructor
  · refine ⟨⟨f.name, f.name, (analyze_file_metadata f.name f.extension).summary,
      f.size, f.time_modified, f.extension⟩, ?_, rfl, rfl, rfl⟩
    rw [show (process_files (mkCollaborators sp ai) files).1 = _ from
      processList_fst (mkCollaborators sp ai) (files.filter eligible)]
    exact List.mem_filterMap.mpr ⟨f, hmem, by rw [hpo]⟩
  · refine ⟨⟨f.name, "Content Extraction Failed", e⟩, ?_, rfl, rfl, rfl⟩
    rw [show (process_files (mkCollaborators sp ai) files).2 = _ from
      processList_snd (mkCollaborators sp ai) (files.filter eligible)]
    refine List.mem_flatMap.mpr ⟨f, hmem, ?_⟩
    rw [hpo]
    exact List.mem_singleton.mpr rfl

/-- Witness for C4: a batch of one eligible text file against a client
whose download always raises yields both a metadata-only record and a
"Content Extraction Failed" error for that file. -/
theorem content_extraction_failure_record_and_error_coexist_witness :
    (∃ r ∈ (process_files (mkCollaborators failSP cexAI) [dTxt]).1,
      r.filename = dTxt.name ∧ r.title = dTxt.name ∧
      r.summary = (analyze_file_metadata dTxt.name dTxt.extension).summary) ∧
    ∃ pe ∈ (process_files (mkCollaborators failSP cexAI) [dTxt]).2,
      pe.filename = dTxt.name ∧ pe.error_type = "Content Extraction Failed" ∧
      pe.error_message = "network down" :=
  content_extraction_failure_record_and_error_coexist failSP cexAI [dTxt]
    dTxt "network down" (by decide) (by decide) rfl

/-- C7: `analyze_file_metadata` (the spec's Contract B) is a pure,
deterministic function with no collaborator argument: for every filename
and format tag it returns title = filename and the summary
"File type: <tag>. Content analysis not available for this file type.",
which states the format tag; in particular the summary for
("report.xyz", ".xyz") contains ".xyz". -/
theorem analyze_file_metadata_pure_and_states_format :
    ∀ filename extension : String,
      (analyze_file_metadata filename extension).title = filename ∧
      (analyze_file_metadata filename extension).summary =
        "File type: " ++
          (extension ++ ". Content analysis not available for this file type.") ∧
      ∃ pre post,
        (analyze_file_metadata "report.xyz" ".xyz").summary =
          pre ++ (".xyz" ++ post) :=
  fun _ _ =>
    ⟨rfl, rfl,
     ⟨"File type: ", ". Content analysis not available for this file type.", rfl⟩⟩

/-- C8: the content `analyze_document` sends to the text-generation
collaborator is `truncate_content` of the input: content at or below the
configured maximum is passed unchanged with no marker, content above it
is cut to the first `max_content_length` characters with the visible
marker "\n... [content truncated]" appended. -/
theorem analyze_document_truncates_before_sending (env : AIEnv)
    (max_content_length : Nat) (filename content : String) :
    (content.length ≤ max_content_length →
      truncate_content max_content_length content = content) ∧
    (max_content_length < content.length →
      truncate_content max_content_length content =
        pyTake content max_content_length ++ truncation_marker ∧
      ∃ pre, truncate_content max_content_length content =
        pre ++ "[content truncated]") ∧
    analyze_document env max_content_length filename content =
      parse_analysis env filename
        (env.complete (build_prompt filename
          (truncate_content max_content_length content))) := by
  refine ⟨fun hle => ?_, fun hgt => ?_, rfl⟩
  · unfold truncate_content
    rw [if_neg (by omega)]
  · have heq : truncate_content max_content_length content =
        pyTake content max_content_length ++ truncation_marker := by
      unfold truncate_content
      rw [if_pos (by omega)]
    refine ⟨heq, ⟨pyTake content max_content_length ++ "\n... ", ?_⟩⟩
    rw [heq]
    have hm : truncation_marker = "\n... " ++ "[content truncated]" := rfl
    rw [hm, ← String.append_assoc]

/-- C9: the report row renders the size as the raw byte count divided by
1024 rounded (half to even, as Python's `round`) to two decimal digits —
so 2048 bytes renders as exactly 2 — while every stored AnalysisRecord
keeps the raw byte count of its FileDescriptor unchanged. -/
theorem report_size_kibibytes_record_keeps_raw_bytes
    (c : Collaborators) (files : List FileDescriptor) :
    (∀ results : List AnalysisRecord,
      (report_rows results).map (fun row => row.size_kb) =
        results.map (fun r => pyRound2 ((r.size : Rat) / 1024))) ∧
    pyRound2 ((2048 : Rat) / 1024) = 2 ∧
    ∀ r ∈ (process_files c files).1, ∃ f ∈ files,
      eligible f = true ∧ r.size = f.size ∧ r.filename = f.name := by
  refine ⟨fun results => ?_, ?_, fun r hr => ?_⟩
  · unfold report_rows report_row
    rw [List.map_map]
    rw [show ((fun row : ReportRow => row.size_kb) ∘
        fun p : Nat × AnalysisRecord =>
          (⟨p.1 + 1, p.2.filename, p.2.title, p.2.summary,
            pyRound2 ((p.2.size : Rat) / 1024), p.2.time_modified⟩ : ReportRow)) =
      (fun r : AnalysisRecord => pyRound2 ((r.size : Rat) / 1024)) ∘ Prod.snd
      from rfl]
    rw [← List.map_map, List.enum_map_snd]
  · have h1 : (2048 : Rat) / 1024 * 100 = 200 := by norm_num
    unfold pyRound2
    rw [h1]
    norm_num
  · rw [show (process_files c files).1 = _ from
      processList_fst c (files.filter eligible)] at hr
    obtain ⟨f, hfmem, hfr⟩ := List.mem_filterMap.mp hr
    obtain ⟨hin, helig⟩ := List.mem_filter.mp hfmem
    obtain ⟨hname, hsize, _, _⟩ := processOne_some c f r hfr
    exact ⟨f, hin, helig, hsize, hname⟩

/-- C10: the format-specific extractors never raise on a decode error —
each catches the exception and returns a non-empty bracketed error string
as ordinary text, which is non-blank after stripping — and
`get_file_content_as_text` raises exactly when `download_file` raises:
every error it returns is the download's error, and a successful download
always yields `.ok` text for every extension. -/
theorem extractor_decode_errors_do_not_raise (env : SPEnv) (url ext : String) :
    (∀ e, get_file_content_as_text env url ext = .error e →
      env.download_file url = .error e) ∧
    (∀ bs, env.download_file url = .ok bs →
      ∃ s, get_file_content_as_text env url ext = .ok s) ∧
    (∀ bs e, env.pdf_reader bs = .error e →
      extract_pdf_text env bs = "[Error extracting PDF text: " ++ e ++ "]" ∧
      pyStrip (extract_pdf_text env bs) ≠ "") ∧
    (∀ bs e, env.docx_paragraphs bs = .error e →
      extract_docx_text env bs = "[Error extracting DOCX text: " ++ e ++ "]" ∧
      pyStrip (extract_docx_text env bs) ≠ "") := by
  have hok : ∀ bs, env.download_file url = .ok bs →
      ∃ s, get_file_content_as_text env url ext = .ok s := by
    intro bs hd
    unfold get_file_content_as_text
    rw [hd]
    split_ifs <;> exact ⟨_, rfl⟩
  refine ⟨fun e he => ?_, hok, fun bs e hp => ?_, fun bs e hd => ?_⟩
  · cases hd : env.download_file url with
    | ok bs =>
        obtain ⟨s, hs⟩ := hok bs hd
        rw [hs] at he
        exact Except.noConfusion he
    | error e0 =>
        have hthis : get_file_content_as_text env url ext = .error e0 := by
          unfold get_file_content_as_text
          rw [hd]
        rw [hthis] at he
        rw [Except.error.inj he]
  · have heq : extract_pdf_text env bs =
        "[Error extracting PDF text: " ++ e ++ "]" := by
      unfold extract_pdf_text
      rw [hp]
    refine ⟨heq, ?_⟩
    rw [heq]
    refine pyStrip_ne_empty _ '[' ?_ (by decide)
    rw [string_data_append, string_data_append]
    exact List.mem_append.mpr (Or.inl (List.mem_append.mpr (Or.inl (by decide))))
  · have heq : extract_docx_text env bs =
        "[Error extracting DOCX text: " ++ e ++ "]" := by
      unfold extract_docx_text
      rw [hd]
    refine ⟨heq, ?_⟩
    rw [heq]
    refine pyStrip_ne_empty _ '[' ?_ (by decide)
    rw [string_data_append, string_data_append]
    exact List.mem_append.mpr (Or.inl (List.mem_append.mpr (Or.inl (by decide))))
